import Mathlib

/-!
# Shallow embedding of the AFWERX SBIR/STTR Evaluation Tool

Definitions are translated from the repository's source:

* `src/afwerx_sbir_sttr_evaluator_web_app_configurable.jsx` — the configurable
  evaluator (types, `clamp01`, `ratingToScore`, `overallScore`, `mandatoryResults`,
  `disqualified`, `handleLoadConfig`, the milestone badge, `DEFAULT_CONFIG`);
* `src/src/app/intake/page.tsx` — the scoring API route (`POST` handler, prompt
  construction, rubric, error handling).

Modelling conventions:
* JavaScript numbers are modelled as exact rationals (`ℚ`);
* JavaScript string-keyed records (`Record<string, T>`) are modelled as functions
  `String → Option T`, with record insertion updating the function;
* optional fields (`field?: T`) become `Option T`;
* fallible platform builtins (`JSON.parse`, the external model call) are modelled
  as explicit `Option` / `Except` values supplied as parameters, since their
  implementations live outside this repository.
-/

namespace Afwerx

/-- The five ordinal ratings (`ratingOptions` / type `Rating` in the source). -/
inductive Rating where
  | Excellent
  | Good
  | Acceptable
  | Marginal
  | Poor
deriving DecidableEq

/-- `clamp01(n) = Math.max(0, Math.min(1, n))` from the source. -/
def clamp01 (n : ℚ) : ℚ := max 0 (min 1 n)

/-- `ratingToScore` from the source: the five ordinals map to 1, 0.8, 0.6, 0.4, 0.2. -/
def ratingToScore : Rating → ℚ
  | Rating.Excellent => 1
  | Rating.Good => 8 / 10
  | Rating.Acceptable => 6 / 10
  | Rating.Marginal => 4 / 10
  | Rating.Poor => 2 / 10

/-- The `Phase` string union type: "Phase I" | "Phase II" | "D2P2". -/
inductive Phase where
  | phaseI
  | phaseII
  | d2p2
deriving DecidableEq

/-- The component union type: "DAF" | "USSF" | "DoD". -/
inductive Component where
  | DAF
  | USSF
  | DoD
deriving DecidableEq

/-- The `limit.kind` union type: "number" | "months" | "pages". -/
inductive LimitKind where
  | number
  | months
  | pages
deriving DecidableEq

/-- The optional `limit` object of a mandatory criterion: `{ kind, value }`. -/
structure Limit where
  kind : LimitKind
  value : ℚ
deriving DecidableEq

/-- `MandatoryCriterion` from the source. -/
structure MandatoryCriterion where
  id : String
  label : String
  extractorKey : Option String := none
  limit : Option Limit := none
  required : Bool
deriving DecidableEq

/-- `RubricCriterion` from the source.  The optional display-only strings
`description` and `howToExcellence` are carried as optional fields. -/
structure RubricCriterion where
  id : String
  label : String
  description : Option String := none
  weight : ℚ
  howToExcellence : Option String := none
deriving DecidableEq

/-- `Category` from the source. -/
structure Category where
  id : String
  label : String
  weight : ℚ
  criteria : List RubricCriterion
deriving DecidableEq

/-- `MilestoneRule` from the source. -/
structure MilestoneRule where
  id : String
  label : String
  rule : String
deriving DecidableEq

/-- The optional `pagePolicy` object of a solicitation config. -/
structure PagePolicy where
  techVolumeMaxPages : Option ℚ := none
  excludes : Option (List String) := none
deriving DecidableEq

/-- The optional `references` object of a solicitation config. -/
structure References where
  triUrl : Option String := none
  baaUrl : Option String := none
deriving DecidableEq

/-- The `meta` object of a solicitation config. -/
structure ConfigMeta where
  name : String
  version : String
  component : Component
  openDate : Option String := none
  closeDate : Option String := none
deriving DecidableEq

/-- `SolicitationConfig` from the source. -/
structure SolicitationConfig where
  meta : ConfigMeta
  phasesSupported : List Phase
  mandatory : List MandatoryCriterion
  additional : Option (List MandatoryCriterion) := none
  categories : List Category
  milestoneRules : List MilestoneRule
  pagePolicy : Option PagePolicy := none
  costCapUSD : Option ℚ := none
  maxPoPMonths : Option ℚ := none
  references : Option References := none
deriving DecidableEq

/-- The `proposalMeta` state record from the source. -/
structure ProposalMeta where
  title : String := ""
  company : String := ""
  topicNumber : String := ""
  cmSigned : Bool := false
  tvPages : ℚ := 0
  popMonths : ℚ := 0
  costTotal : ℚ := 0
  rcfPresent : Bool := false
  fwaPresent : Bool := false
  vol7Present : Bool := false
  powOk : Bool := false
deriving DecidableEq

/-- A milestone entry from the `milestones` state list.  The source field named
`end` is a reserved word here and is rendered `endDate`. -/
structure Milestone where
  id : String
  title : String
  description : String
  rdCentric : Bool
  measurable : Bool
  start : String
  endDate : String
deriving DecidableEq

/-- The `ratings` state: `Record<string, Rating>`, modelled as a partial map. -/
def RatingSet : Type := String → Option Rating

/-- `ratings[c.id] || "Acceptable"`: lookup with truthiness fallback.  Rating
strings are never empty, so JS truthiness coincides with presence. -/
def ratingOf (ratings : RatingSet) (id : String) : Rating :=
  (ratings id).getD Rating.Acceptable

/-- The per-category accumulation inside `overallScore`:
`for (const c of cat.criteria) catScore += ratingToScore(r) * c.weight`. -/
def catPoints (ratings : RatingSet) (cat : Category) : ℚ :=
  (cat.criteria.map (fun c => ratingToScore (ratingOf ratings c.id) * c.weight)).sum

/-- `+(x).toFixed(1)`: round to one decimal place (ties round upward, as
`toFixed` picks the larger candidate on ties for non-negative values). -/
def roundTo1 (x : ℚ) : ℚ := (round (x * 10) : ℤ) / 10

/-- `overallScore` from the source: weighted category score, each category
subtotal clamped to [0,1], scaled to 100 and rounded to one decimal. -/
def overallScore (cfg : SolicitationConfig) (ratings : RatingSet) : ℚ :=
  roundTo1 (((cfg.categories.map (fun cat => clamp01 (catPoints ratings cat) * cat.weight)).sum) * 100)

/-- JS truthiness of an optional number: `undefined`, and `0`, are falsy. -/
def isTruthy : Option ℚ → Bool
  | none => false
  | some v => !(v == 0)

/-- The body of the `for (const m of config.mandatory)` loop in
`mandatoryResults`: sequential `if` statements over `m.id`, starting from
`ok = true`.  The body reads only `m.id` (never `m.limit` / `m.extractorKey`),
so it is a function of the id.  `typeof proposalMeta.x === "number"` guards are
always true in this model (the fields are numbers by construction). -/
def evalMandatory (cfg : SolicitationConfig) (meta : ProposalMeta) (id : String) : Bool :=
  let ok := true
  let ok := if id == "costCap" && isTruthy cfg.costCapUSD then
      decide (meta.costTotal ≤ cfg.costCapUSD.getD 0) else ok
  let ok := if id == "popCap" && isTruthy cfg.maxPoPMonths then
      decide (meta.popMonths ≤ cfg.maxPoPMonths.getD 0) else ok
  let ok := if id == "pages" && isTruthy (cfg.pagePolicy.bind PagePolicy.techVolumeMaxPages) then
      decide (meta.tvPages ≤ (cfg.pagePolicy.bind PagePolicy.techVolumeMaxPages).getD 0) else ok
  let ok := if id == "cmSigned" then meta.cmSigned else ok
  let ok := if id == "rcf" then meta.rcfPresent else ok
  ok

/-- `mandatoryResults` from the source: a `Record<string, boolean>` built by
iterating `config.mandatory` and assigning `map[m.id] = !!ok`; a later entry
with the same id overwrites an earlier one. -/
def mandatoryResults (cfg : SolicitationConfig) (meta : ProposalMeta) : String → Option Bool :=
  cfg.mandatory.foldl
    (fun map m => fun k => if k == m.id then some (evalMandatory cfg meta m.id) else map k)
    (fun _ => none)

/-- `disqualified` from the source:
`config.mandatory.some((m) => m.required && mandatoryResults[m.id] === false)`. -/
def disqualified (cfg : SolicitationConfig) (meta : ProposalMeta) : Bool :=
  cfg.mandatory.any (fun m => m.required && (mandatoryResults cfg meta m.id == some false))

/-- `handleLoadConfig` from the source.  `JSON.parse` is a platform builtin
modelled as an abstract parse function returning `none` exactly when parsing
throws.  The result is the new active config paired with whether the error
alert was shown. -/
def handleLoadConfig (parse : String → Option SolicitationConfig)
    (configText : String) (config : SolicitationConfig) : SolicitationConfig × Bool :=
  match parse configText with
  | some parsed => (parsed, false)
  | none => (config, true)

/-- The milestone badge from the source (line 544):
`(m.rdCentric && m.measurable) ? "Strong" : "Needs Work"`. -/
def milestoneBadge (m : Milestone) : String :=
  if m.rdCentric && m.measurable then "Strong" else "Needs Work"

/-- `DEFAULT_CONFIG` from the source (the AFX25.5 Release 8 demo rulepack). -/
def DEFAULT_CONFIG : SolicitationConfig where
  meta :=
    { name := "AFX25.5 Release 8 (Amendment 1)"
      version := "2025-05-22"
      component := Component.DAF
      openDate := some "2025-05-07"
      closeDate := some "2025-06-05" }
  phasesSupported := [Phase.phaseI, Phase.phaseII, Phase.d2p2]
  costCapUSD := some 1250000
  maxPoPMonths := some 21
  pagePolicy := some
    { techVolumeMaxPages := some 15
      excludes := some ["Coversheet", "Glossary", "Table of Contents"] }
  mandatory :=
    [ { id := "costCap", label := "SBIR cost ≤ $1.25M", extractorKey := some "cost_total",
        limit := some { kind := LimitKind.number, value := 1250000 }, required := true }
    , { id := "popCap", label := "Period of Performance ≤ 21 months", extractorKey := some "pop_months",
        limit := some { kind := LimitKind.months, value := 21 }, required := true }
    , { id := "cmSigned", label := "Signed Customer Memorandum (end-user, customer, TPOC)",
        extractorKey := some "cm_signed", required := true }
    , { id := "pages", label := "Technical Volume ≤ 15 pages (excl. Cover/TOC/Glossary)",
        extractorKey := some "tv_pages", limit := some { kind := LimitKind.pages, value := 15 },
        required := true }
    , { id := "rcf", label := "Regulatory Compliance Form included", extractorKey := some "rcf_present",
        required := true } ]
  additional := some
    [ { id := "fwa", label := "FWA Training proof included (Vol 6)", extractorKey := some "fwa_present",
        required := false }
    , { id := "vol7", label := "Volume 7 Disclosures completed", extractorKey := some "vol7_present",
        required := false }
    , { id := "pow", label := "% of Work meets SBIR thresholds", extractorKey := some "pow_ok",
        required := false } ]
  categories :=
    [ { id := "TECH", label := "Technical Merit", weight := 45 / 100
        criteria :=
          [ { id := "tech_problem", label := "Problem & Use Case Framing", weight := 20 / 100 }
          , { id := "tech_approach", label := "Technical Approach Soundness & Merit", weight := 35 / 100 }
          , { id := "tech_risk", label := "Level of Risk", weight := 15 / 100 }
          , { id := "tech_innov", label := "Innovation & Differentiation", weight := 15 / 100 }
          , { id := "team", label := "Team Qualifications", weight := 15 / 100 } ] }
    , { id := "DEF_NEED", label := "Defense Need", weight := 35 / 100
        criteria :=
          [ { id := "mission_impact", label := "Mission Impact & Urgency", weight := 35 / 100 }
          , { id := "breadth", label := "Breadth of Applicability", weight := 20 / 100 }
          , { id := "specificity", label := "Specificity of Need & Adequacy of Effort", weight := 30 / 100 }
          , { id := "docs", label := "CM & Supporting Docs (Phase II only)", weight := 15 / 100 } ] }
    , { id := "COMM", label := "Commercialization", weight := 20 / 100
        criteria :=
          [ { id := "market", label := "Market & Revenue Potential", weight := 35 / 100 }
          , { id := "biz", label := "Business Plan", weight := 30 / 100 }
          , { id := "interest", label := "Defense & Private Interest", weight := 20 / 100 }
          , { id := "docs_comm", label := "CM & Supporting Docs (Phase II)", weight := 15 / 100 } ] }
    ]
  milestoneRules :=
    [ { id := "rnd", label := "R&D Centric", rule := "Milestones must be primarily R&D (not training/admin)." }
    , { id := "measurable", label := "Measurable Output", rule := "Each milestone includes acceptance criteria & testable deliverable." }
    , { id := "timeline", label := "Time-Boxed", rule := "Each milestone has start/end within PoP and clear dependencies." } ]
  references := some
    { triUrl := some "https://afwerx.com/divisions/ventures/open-topic/"
      baaUrl := some "https://www.dodsbirsttr.mil/" }

/-- The empty rating record: no criterion has been rated yet. -/
def emptyRatings : RatingSet := fun _ => none

/-- Written from the spec's words (§4.2), to be compared against `ratingToScore`:
"the five ordinal ratings map linearly to 1.0, 0.8, 0.6, 0.4, 0.2". -/
def specRatingValue : Rating → ℚ
  | Rating.Excellent => 1.0
  | Rating.Good => 0.8
  | Rating.Acceptable => 0.6
  | Rating.Marginal => 0.4
  | Rating.Poor => 0.2

/-- Written from the spec's words: "clamp the category subtotal to [0,1]". -/
def specClampUnit (x : ℚ) : ℚ := min 1 (max 0 x)

/-- Written from the spec's words: "for each category, sum over its criteria of
(ordinal-rating-to-score(rating) × criterion weight)"; "missing ratings default
to the middle ordinal". -/
def specCategorySubtotal (ratings : RatingSet) : List RubricCriterion → ℚ
  | [] => 0
  | c :: rest =>
      specRatingValue (match ratings c.id with
        | some r => r
        | none => Rating.Acceptable) * c.weight
      + specCategorySubtotal ratings rest

/-- Written from the spec's words: "clamp the category subtotal to [0,1];
multiply by the category's own weight; sum across categories". -/
def specWeightedTotal (ratings : RatingSet) : List Category → ℚ
  | [] => 0
  | cat :: rest =>
      specClampUnit (specCategorySubtotal ratings cat.criteria) * cat.weight
      + specWeightedTotal ratings rest

/-- Written from the spec's words (§4.2): the full aggregation — "multiply by
100; round to one decimal". -/
def specOverallScore (cfg : SolicitationConfig) (ratings : RatingSet) : ℚ :=
  roundTo1 (specWeightedTotal ratings cfg.categories * 100)

/-! ## The scoring API route (`src/src/app/intake/page.tsx`, `POST` handler) -/

/-- One entry of the hardcoded rubric in the route handler. -/
structure RubricItem where
  key : String
  weight : ℚ
  guidance : String
deriving DecidableEq

/-- The fixed five-item rubric literal from the route handler. -/
def rubric : List RubricItem :=
  [ { key := "Significance", weight := 12 / 10, guidance := "Impact & problem clarity" }
  , { key := "Innovation", weight := 1, guidance := "Novelty & differentiation" }
  , { key := "Approach", weight := 14 / 10, guidance := "Method, risks, milestones" }
  , { key := "Team/PI", weight := 8 / 10, guidance := "Qualifications & gaps" }
  , { key := "Commercialization", weight := 16 / 10, guidance := "Path to revenue & market" } ]

/-- `s.slice(0, n)` on a JS string, modelled character-wise: the first `n`
characters of `s` (all of `s` when it is shorter). -/
def jsSlice (s : String) (n : Nat) : String := String.mk (s.data.take n)

/-- JS `x || fb` where `x` is a string or undefined/null: the fallback is used
when `x` is absent or the empty string (the only falsy string). -/
def strFalsyOr : Option String → String → String
  | some s, fb => if s = "" then fb else s
  | none, fb => fb

/-- The section portion of the user prompt: `text?.slice(0, 6000) || ""`.
A missing or null `text` yields the empty string. -/
def sectionText (text : Option String) : String :=
  strFalsyOr (text.map (fun t => jsSlice t 6000)) ""

/-- The user message of the request to the external model:
`"Rubric: " + JSON.stringify(rubric) + "\n---\nSection:\n" + (text?.slice(0, 6000) || "")`.
`JSON.stringify` is a platform builtin, supplied abstractly. -/
def userPrompt (stringify : List RubricItem → String) (text : Option String) : String :=
  "Rubric: " ++ stringify rubric ++ "\n---\nSection:\n" ++ sectionText text

/-- An item of the response shape `{items: [{criterion_key, score, rationale}]}`. -/
structure ScoreItem where
  criterion_key : String
  score : ℚ
  rationale : String
deriving DecidableEq

/-- The observable outcome of the route handler.  `success s d` models
`NextResponse.json(data)` (status `s = 200`); `failure s e items` models
`NextResponse.json({error: e, items}, {status: s})`; `uncaught e` models an
exception escaping the handler (thrown outside the `try` block), which never
produces either JSON response. -/
inductive PostOutcome (α : Type) where
  | success (status : Nat) (data : α)
  | failure (status : Nat) (error : String) (items : List ScoreItem)
  | uncaught (msg : String)
deriving DecidableEq

/-- Whether an outcome is the caught-error response the spec describes:
status 500 with body `{error: string, items: []}`. -/
def respondsCaught500 {α : Type} : PostOutcome α → Bool
  | PostOutcome.failure s _ items => s == 500 && items.isEmpty
  | _ => false

/-- The `POST` route handler from `src/src/app/intake/page.tsx`, with the
platform-dependent pieces abstracted:

* `bodyText` is the outcome of `JSON.parse(body || '{}')` and the extraction of
  its `text` field — note this runs **before** the `try` block, so a parse
  failure (`Except.error`) escapes uncaught;
* `llmCall` is the external chat-completion call, mapping the user prompt to
  either a thrown error message or the (possibly null) message content;
* `parseJson` is `JSON.parse` applied to the content (with the
  `'{"items":[]}'` fallback for null/empty content), either throwing or
  producing the parsed value.

Inside the `try` block every thrown error `e` is caught and answered with
`NextResponse.json({error: e?.message || "failed", items: []}, {status: 500})`. -/
def POST {α : Type} (stringify : List RubricItem → String)
    (bodyText : Except String (Option String))
    (llmCall : String → Except String (Option String))
    (parseJson : String → Except String α) : PostOutcome α :=
  match bodyText with
  | Except.error e => PostOutcome.uncaught e
  | Except.ok text =>
    match llmCall (userPrompt stringify text) with
    | Except.error e => PostOutcome.failure 500 (strFalsyOr (some e) "failed") []
    | Except.ok content =>
      match parseJson (strFalsyOr content "\x7b\x22items\x22:[]\x7d") with
      | Except.error e => PostOutcome.failure 500 (strFalsyOr (some e) "failed") []
      | Except.ok data => PostOutcome.success 200 data

/-! ## Concrete inputs used by witnesses and counterexamples -/

/-- A proposal matching the spec's §8 worked example: cost total 1,180,000,
14 technical-volume pages, customer memorandum unchecked. -/
def exampleMeta : ProposalMeta :=
  { title := "Autonomous ISR Mesh", company := "Acme Robotics, Inc.", topicNumber := "AFX255-DPCSO3",
    cmSigned := false, tvPages := 14, popMonths := 21, costTotal := 1180000,
    rcfPresent := true, fwaPresent := false, vol7Present := false, powOk := false }

/-- A malformed-weight config: a single category of weight 2 (category weights
are caller-supplied and unvalidated).  With no ratings entered, every criterion
defaults to Acceptable and the overall score overshoots 100. -/
def overweightConfig : SolicitationConfig :=
  { meta := { name := "Overweight", version := "1", component := Component.DoD }
    phasesSupported := [Phase.phaseI]
    mandatory := []
    categories := [ { id := "ONLY", label := "Only", weight := 2,
                      criteria := [ { id := "c1", label := "C1", weight := 1 } ] } ]
    milestoneRules := [] }

/-- A mandatory criterion whose id none of the five hardcoded comparisons
recognizes, with `limit` and `extractorKey` populated. -/
def unknownCrit : MandatoryCriterion :=
  { id := "fooBar", label := "Mystery gate", extractorKey := some "foo_bar",
    limit := some { kind := LimitKind.number, value := 7 }, required := true }

/-- A config whose mandatory list contains only `unknownCrit`. -/
def unknownIdConfig : SolicitationConfig :=
  { meta := { name := "Unknown", version := "1", component := Component.DoD }
    phasesSupported := [Phase.phaseI]
    mandatory := [unknownCrit]
    categories := []
    milestoneRules := [] }

/-- First category of the permutation-witness config. -/
def permCatA : Category :=
  { id := "A", label := "A", weight := 7 / 10,
    criteria := [ { id := "a1", label := "A1", weight := 5 / 10 }
                , { id := "a2", label := "A2", weight := 5 / 10 } ] }

/-- Second category of the permutation-witness config. -/
def permCatB : Category :=
  { id := "B", label := "B", weight := 3 / 10,
    criteria := [ { id := "b1", label := "B1", weight := 1 } ] }

/-- A two-category config used to witness permutation invariance. -/
def permConfigA : SolicitationConfig :=
  { meta := { name := "Perm", version := "1", component := Component.DAF }
    phasesSupported := [Phase.d2p2]
    mandatory := []
    categories := [permCatA, permCatB]
    milestoneRules := [] }

/-- A small alternative config used to witness wholesale config replacement. -/
def altConfig : SolicitationConfig :=
  { meta := { name := "SF25.3", version := "2", component := Component.USSF }
    phasesSupported := [Phase.phaseII]
    mandatory := []
    categories := []
    milestoneRules := [] }

/-- A stub external-model call that always succeeds with fixed content. -/
def stubLlm : String → Except String (Option String) := fun _ => Except.ok (some "x")

/-- A stub response parser that always succeeds with an empty item list. -/
def stubParse : String → Except String (List ScoreItem) := fun _ => Except.ok []

/-- A stub `JSON.stringify` for the rubric. -/
def stubStringify : List RubricItem → String := fun _ => "[]"

/-! ## Helper lemmas -/

/-- Lookup in a string-keyed record built by folding insertions over a list:
the key is bound exactly when some list element carries it, and the stored
value depends only on the key. -/
theorem record_foldl_lookup (g : String → Option Bool) (l : List MandatoryCriterion)
    (acc : String → Option Bool) (k : String) :
    (l.foldl (fun map m => fun s => if s == m.id then g m.id else map s) acc) k
      = if l.any (fun m => m.id == k) then g k else acc k := by
  induction l generalizing acc with
  | nil => simp
  | cons m rest ih =>
    simp only [List.foldl_cons, List.any_cons]
    rw [ih]
    by_cases hrest : rest.any (fun m => m.id == k) = true
    · simp [hrest]
    · by_cases hk : k = m.id
      · subst hk
        simp [hrest]
      · have h1 : (k == m.id) = false := by simp [hk]
        have h2 : (m.id == k) = false := by simp [Ne.symm hk]
        simp [hrest, h1, h2]

/-- The result map binds a key iff some mandatory criterion carries it, and the
bound value is the id-keyed evaluation of that key. -/
theorem mandatoryResults_lookup (cfg : SolicitationConfig) (meta : ProposalMeta) (k : String) :
    mandatoryResults cfg meta k
      = if cfg.mandatory.any (fun m => m.id == k) then some (evalMandatory cfg meta k) else none := by
  unfold mandatoryResults
  exact record_foldl_lookup (fun i => some (evalMandatory cfg meta i)) cfg.mandatory (fun _ => none) k

/-- An id none of the five hardcoded comparisons matches leaves `ok` at its
initial `true`. -/
theorem evalMandatory_unknown (cfg : SolicitationConfig) (meta : ProposalMeta) (id : String)
    (h : id ∉ (["costCap", "popCap", "pages", "cmSigned", "rcf"] : List String)) :
    evalMandatory cfg meta id = true := by
  simp only [List.mem_cons, List.not_mem_nil, or_false, not_or] at h
  obtain ⟨h1, h2, h3, h4, h5⟩ := h
  have e1 : (id == "costCap") = false := by simp [h1]
  have e2 : (id == "popCap") = false := by simp [h2]
  have e3 : (id == "pages") = false := by simp [h3]
  have e4 : (id == "cmSigned") = false := by simp [h4]
  have e5 : (id == "rcf") = false := by simp [h5]
  unfold evalMandatory
  simp [e1, e2, e3, e4, e5]

/-- Evaluation of the id "costCap": only the cost comparison fires. -/
theorem evalMandatory_costCap (cfg : SolicitationConfig) (meta : ProposalMeta) :
    evalMandatory cfg meta "costCap"
      = if isTruthy cfg.costCapUSD then decide (meta.costTotal ≤ cfg.costCapUSD.getD 0)
        else true := by
  have h2 : (("costCap" : String) == "popCap") = false := by decide
  have h3 : (("costCap" : String) == "pages") = false := by decide
  have h4 : (("costCap" : String) == "cmSigned") = false := by decide
  have h5 : (("costCap" : String) == "rcf") = false := by decide
  unfold evalMandatory
  simp [h2, h3, h4, h5]

/-- Evaluation of the id "pages": only the page-cap comparison fires. -/
theorem evalMandatory_pages (cfg : SolicitationConfig) (meta : ProposalMeta) :
    evalMandatory cfg meta "pages"
      = if isTruthy (cfg.pagePolicy.bind PagePolicy.techVolumeMaxPages) then
          decide (meta.tvPages ≤ (cfg.pagePolicy.bind PagePolicy.techVolumeMaxPages).getD 0)
        else true := by
  have h1 : (("pages" : String) == "costCap") = false := by decide
  have h2 : (("pages" : String) == "popCap") = false := by decide
  have h4 : (("pages" : String) == "cmSigned") = false := by decide
  have h5 : (("pages" : String) == "rcf") = false := by decide
  unfold evalMandatory
  simp [h1, h2, h4, h5]

/-- Evaluation of the id "cmSigned": the memorandum checkbox decides it. -/
theorem evalMandatory_cmSigned (cfg : SolicitationConfig) (meta : ProposalMeta) :
    evalMandatory cfg meta "cmSigned" = meta.cmSigned := by
  have h1 : (("cmSigned" : String) == "costCap") = false := by decide
  have h2 : (("cmSigned" : String) == "popCap") = false := by decide
  have h3 : (("cmSigned" : String) == "pages") = false := by decide
  have h5 : (("cmSigned" : String) == "rcf") = false := by decide
  unfold evalMandatory
  simp [h1, h2, h3, h5]

/-! ## Claims -/

/-- Claim C1: for every `SolicitationConfig` and `ProposalMetadata`, the
`disqualified` flag is true iff at least one criterion in the mandatory list
has `required = true` and evaluates to not-satisfied in the per-criterion
boolean map. -/
theorem c1_disqualified_iff (cfg : SolicitationConfig) (meta : ProposalMeta) :
    disqualified cfg meta = true ↔
      ∃ m ∈ cfg.mandatory, m.required = true ∧ mandatoryResults cfg meta m.id = some false := by
  unfold disqualified
  rw [List.any_eq_true]
  constructor
  · rintro ⟨m, hm, hp⟩
    rw [Bool.and_eq_true] at hp
    exact ⟨m, hm, hp.1, by simpa using hp.2⟩
  · rintro ⟨m, hm, h1, h2⟩
    exact ⟨m, hm, by simp [h1, h2]⟩

/-- Claim C5: a mandatory criterion whose id is not one of the five recognized
ids is mapped to satisfied in the result map, whatever its `limit` and
`extractorKey` fields and whatever the proposal metadata (fail-open). -/
theorem c5_unknown_id_fail_open (cfg : SolicitationConfig) (meta : ProposalMeta)
    (m : MandatoryCriterion) (hm : m ∈ cfg.mandatory)
    (hid : m.id ∉ (["costCap", "popCap", "pages", "cmSigned", "rcf"] : List String)) :
    mandatoryResults cfg meta m.id = some true := by
  rw [mandatoryResults_lookup]
  rw [if_pos (List.any_eq_true.mpr ⟨m, hm, by simp⟩)]
  rw [evalMandatory_unknown cfg meta m.id hid]

/-- Witness for C5 at a concrete config and metadata. -/
theorem c5_witness :
    mandatoryResults unknownIdConfig exampleMeta "fooBar" = some true :=
  c5_unknown_id_fail_open unknownIdConfig exampleMeta unknownCrit (by decide) (by decide)

/-- Claim C8: with a cost cap of 1,250,000, a page cap of 15, and required
mandatory criteria `costCap`, `pages`, `cmSigned`, a proposal with cost total
1,180,000, 14 pages, and no signed memorandum has `costCap` and `pages`
satisfied, `cmSigned` unsatisfied, and is disqualified. -/
theorem c8_worked_example (cfg : SolicitationConfig) (meta : ProposalMeta)
    (hcap : cfg.costCapUSD = some 1250000)
    (hpp : cfg.pagePolicy.bind PagePolicy.techVolumeMaxPages = some 15)
    (hmc : ∃ m ∈ cfg.mandatory, m.id = "costCap" ∧ m.required = true)
    (hmp : ∃ m ∈ cfg.mandatory, m.id = "pages" ∧ m.required = true)
    (hmm : ∃ m ∈ cfg.mandatory, m.id = "cmSigned" ∧ m.required = true)
    (hcost : meta.costTotal = 1180000)
    (hpages : meta.tvPages = 14)
    (hcm : meta.cmSigned = false) :
    mandatoryResults cfg meta "costCap" = some true ∧
    mandatoryResults cfg meta "pages" = some true ∧
    mandatoryResults cfg meta "cmSigned" = some false ∧
    disqualified cfg meta = true := by
  obtain ⟨mc, hmcMem, hmcId, _⟩ := hmc
  obtain ⟨mp, hmpMem, hmpId, _⟩ := hmp
  obtain ⟨mm, hmmMem, hmmId, hmmReq⟩ := hmm
  have ec : evalMandatory cfg meta "costCap" = true := by
    rw [evalMandatory_costCap, hcap, hcost]
    decide
  have ep : evalMandatory cfg meta "pages" = true := by
    rw [evalMandatory_pages, hpp, hpages]
    decide
  have em : evalMandatory cfg meta "cmSigned" = false := by
    rw [evalMandatory_cmSigned, hcm]
  have lc : mandatoryResults cfg meta "costCap" = some true := by
    rw [mandatoryResults_lookup, if_pos (List.any_eq_true.mpr ⟨mc, hmcMem, by simp [hmcId]⟩), ec]
  have lp : mandatoryResults cfg meta "pages" = some true := by
    rw [mandatoryResults_lookup, if_pos (List.any_eq_true.mpr ⟨mp, hmpMem, by simp [hmpId]⟩), ep]
  have lm : mandatoryResults cfg meta "cmSigned" = some false := by
    rw [mandatoryResults_lookup, if_pos (List.any_eq_true.mpr ⟨mm, hmmMem, by simp [hmmId]⟩), em]
  refine ⟨lc, lp, lm, ?_⟩
  unfold disqualified
  refine List.any_eq_true.mpr ⟨mm, hmmMem, ?_⟩
  rw [hmmId, hmmReq, lm]
  decide

/-- Witness for C8 at the demo default config and the spec's example inputs. -/
theorem c8_witness :
    mandatoryResults DEFAULT_CONFIG exampleMeta "costCap" = some true ∧
    mandatoryResults DEFAULT_CONFIG exampleMeta "pages" = some true ∧
    mandatoryResults DEFAULT_CONFIG exampleMeta "cmSigned" = some false ∧
    disqualified DEFAULT_CONFIG exampleMeta = true :=
  c8_worked_example DEFAULT_CONFIG exampleMeta rfl rfl
    (by decide) (by decide) (by decide) rfl rfl rfl

/-- The spec's ordinal value table agrees with `ratingToScore`. -/
theorem specRatingValue_eq (r : Rating) : specRatingValue r = ratingToScore r := by
  cases r <;> norm_num [specRatingValue, ratingToScore]

/-- The spec's clamp agrees with `clamp01`. -/
theorem specClampUnit_eq (n : ℚ) : specClampUnit n = clamp01 n := by
  unfold specClampUnit clamp01
  rcases le_total n 0 with h | h
  · rw [max_eq_left h, min_eq_right (h.trans zero_le_one), max_eq_left h,
      min_eq_right zero_le_one]
  · rcases le_total n 1 with h2 | h2
    · rw [max_eq_right h, min_eq_right h2, max_eq_right h]
    · rw [max_eq_right h, min_eq_left h2, max_eq_right zero_le_one]

/-- The spec's category subtotal agrees with the code's per-category sum. -/
theorem specCategorySubtotal_eq (r : RatingSet) (cs : List RubricCriterion) :
    specCategorySubtotal r cs
      = (cs.map (fun c => ratingToScore (ratingOf r c.id) * c.weight)).sum := by
  induction cs with
  | nil => simp [specCategorySubtotal]
  | cons c rest ih =>
    simp only [specCategorySubtotal, List.map_cons, List.sum_cons, ih]
    congr 1
    rw [specRatingValue_eq]
    congr 1
    unfold ratingOf
    cases r c.id <;> rfl

/-- The spec's weighted total agrees with the code's weighted sum. -/
theorem specWeightedTotal_eq (r : RatingSet) (L : List Category) :
    specWeightedTotal r L
      = (L.map (fun cat => clamp01 (catPoints r cat) * cat.weight)).sum := by
  induction L with
  | nil => simp [specWeightedTotal]
  | cons cat rest ih =>
    simp only [specWeightedTotal, List.map_cons, List.sum_cons, ih]
    rw [specClampUnit_eq, specCategorySubtotal_eq]
    rfl

/-- A criterion list in which every lookup yields Acceptable contributes 3/5 of
its total weight. -/
theorem points_all_acceptable (r : RatingSet) (cs : List RubricCriterion)
    (h : ∀ c ∈ cs, ratingOf r c.id = Rating.Acceptable) :
    (cs.map (fun c => ratingToScore (ratingOf r c.id) * c.weight)).sum
      = 3 / 5 * (cs.map RubricCriterion.weight).sum := by
  induction cs with
  | nil => simp
  | cons c rest ih =>
    simp only [List.map_cons, List.sum_cons]
    rw [h c (List.mem_cons_self c rest), ih (fun x hx => h x (List.mem_cons_of_mem c hx))]
    show ratingToScore Rating.Acceptable * c.weight + 3 / 5 * (rest.map RubricCriterion.weight).sum
      = 3 / 5 * (c.weight + (rest.map RubricCriterion.weight).sum)
    rw [show ratingToScore Rating.Acceptable = 3 / 5 by norm_num [ratingToScore]]
    ring

/-- With all lookups Acceptable and unit criterion-weight sums, the weighted
category total collapses to 3/5 of the category-weight sum. -/
theorem weighted_total_all_acceptable (r : RatingSet) (L : List Category)
    (hsum : ∀ cat ∈ L, (cat.criteria.map RubricCriterion.weight).sum = 1)
    (hrat : ∀ cat ∈ L, ∀ c ∈ cat.criteria, ratingOf r c.id = Rating.Acceptable) :
    (L.map (fun cat => clamp01 (catPoints r cat) * cat.weight)).sum
      = 3 / 5 * (L.map Category.weight).sum := by
  induction L with
  | nil => simp
  | cons cat rest ih =>
    simp only [List.map_cons, List.sum_cons]
    have hcat : catPoints r cat = 3 / 5 := by
      unfold catPoints
      rw [points_all_acceptable r cat.criteria (hrat cat (List.mem_cons_self cat rest)),
        hsum cat (List.mem_cons_self cat rest)]
      norm_num
    have hclamp : clamp01 (3 / 5 : ℚ) = 3 / 5 := by
      unfold clamp01
      rw [min_eq_right (by norm_num), max_eq_right (by norm_num)]
    rw [hcat, hclamp,
      ih (fun x hx => hsum x (List.mem_cons_of_mem cat hx))
         (fun x hx => hrat x (List.mem_cons_of_mem cat hx))]
    ring

/-- One-decimal rounding is the identity on integers. -/
theorem roundTo1_intCast (n : ℤ) : roundTo1 (n : ℚ) = n := by
  unfold roundTo1
  rw [show ((n : ℚ)) * 10 = ((10 * n : ℤ) : ℚ) by push_cast; ring, round_intCast]
  push_cast
  rw [mul_comm, mul_div_assoc]
  norm_num

/-- Rounding an integer-valued score is the identity: 60 stays 60. -/
theorem roundTo1_sixty : roundTo1 60 = 60 := by
  rw [show (60 : ℚ) = ((60 : ℤ) : ℚ) by norm_num, roundTo1_intCast]

/-- Claim C2: the overall score is exactly the spec's aggregation (ordinal map
1.0/0.8/0.6/0.4/0.2, Acceptable default, per-category clamp to [0,1], category
weights, ×100, one-decimal rounding); in particular with category weights
0.45/0.35/0.2, unit criterion-weight sums, and every criterion Acceptable, the
overall score is 60.0. -/
theorem c2_overall_score (cfg : SolicitationConfig) (ratings : RatingSet) :
    overallScore cfg ratings = specOverallScore cfg ratings ∧
    (cfg.categories.map Category.weight = [45 / 100, 35 / 100, 20 / 100] →
     (∀ cat ∈ cfg.categories, (cat.criteria.map RubricCriterion.weight).sum = 1) →
     (∀ cat ∈ cfg.categories, ∀ c ∈ cat.criteria, ratingOf ratings c.id = Rating.Acceptable) →
     overallScore cfg ratings = 60) := by
  constructor
  · unfold overallScore specOverallScore
    rw [specWeightedTotal_eq]
  · intro hmap hsum hrat
    unfold overallScore
    rw [weighted_total_all_acceptable ratings cfg.categories hsum hrat, hmap]
    rw [show (3 / 5 : ℚ) * ([45 / 100, 35 / 100, 20 / 100] : List ℚ).sum * 100 = 60 by
      simp only [List.sum_cons, List.sum_nil]
      norm_num]
    exact roundTo1_sixty

/-- Witness for C2 at the demo default config with no ratings entered. -/
theorem c2_witness : overallScore DEFAULT_CONFIG emptyRatings = 60 :=
  (c2_overall_score DEFAULT_CONFIG emptyRatings).2 rfl
    (by
      intro cat hcat
      fin_cases hcat <;>
        · norm_num [List.map_cons, List.map_nil, List.sum_cons, List.sum_nil])
    (fun _ _ _ _ => rfl)

/-- Counterexample to C3 as stated: with a category weight of 2 (category
weights are caller-supplied and not validated), the all-default score is 120,
outside [0, 100]. -/
theorem c3_counterexample :
    overallScore overweightConfig emptyRatings = 120 ∧
    ¬ overallScore overweightConfig emptyRatings ≤ 100 := by
  have hsum : ∀ cat ∈ overweightConfig.categories,
      (cat.criteria.map RubricCriterion.weight).sum = 1 := by
    intro cat hcat
    fin_cases hcat
    norm_num [List.map_cons, List.map_nil, List.sum_cons, List.sum_nil]
  have hrat : ∀ cat ∈ overweightConfig.categories, ∀ c ∈ cat.criteria,
      ratingOf emptyRatings c.id = Rating.Acceptable := fun _ _ _ _ => rfl
  have hscore : overallScore overweightConfig emptyRatings = 120 := by
    unfold overallScore
    rw [weighted_total_all_acceptable emptyRatings overweightConfig.categories hsum hrat]
    rw [show (3 / 5 : ℚ) * ((overweightConfig.categories.map Category.weight).sum) * 100 = 120 by
      norm_num [overweightConfig, List.map_cons, List.map_nil, List.sum_cons, List.sum_nil]]
    rw [show (120 : ℚ) = ((120 : ℤ) : ℚ) by norm_num, roundTo1_intCast]
  refine ⟨hscore, ?_⟩
  rw [hscore]
  norm_num

/-- Claim C3 (amended): when every category weight is nonnegative and the
category weights sum to at most 1, the overall score lies in [0, 100] for every
rating set, with the criterion weights still unconstrained. -/
theorem c3_amended_bounds (cfg : SolicitationConfig) (ratings : RatingSet)
    (hw : ∀ cat ∈ cfg.categories, 0 ≤ cat.weight)
    (hs : (cfg.categories.map Category.weight).sum ≤ 1) :
    0 ≤ overallScore cfg ratings ∧ overallScore cfg ratings ≤ 100 := by
  have hT0 : 0 ≤ (cfg.categories.map (fun cat => clamp01 (catPoints ratings cat) * cat.weight)).sum := by
    refine List.sum_nonneg ?_
    intro x hx
    obtain ⟨cat, hcat, rfl⟩ := List.mem_map.mp hx
    exact mul_nonneg (le_max_left 0 _) (hw cat hcat)
  have hT1 : (cfg.categories.map (fun cat => clamp01 (catPoints ratings cat) * cat.weight)).sum
      ≤ (cfg.categories.map Category.weight).sum := by
    refine List.sum_le_sum ?_
    intro cat hcat
    calc clamp01 (catPoints ratings cat) * cat.weight
        ≤ 1 * cat.weight :=
          mul_le_mul_of_nonneg_right (max_le zero_le_one (min_le_left 1 _)) (hw cat hcat)
      _ = cat.weight := one_mul _
  have hT : (cfg.categories.map (fun cat => clamp01 (catPoints ratings cat) * cat.weight)).sum ≤ 1 :=
    hT1.trans hs
  unfold overallScore roundTo1
  constructor
  · apply div_nonneg _ (by norm_num)
    have h : (0 : ℤ) ≤ round ((cfg.categories.map
        (fun cat => clamp01 (catPoints ratings cat) * cat.weight)).sum * 100 * 10) := by
      rw [round_eq]
      apply Int.le_floor.mpr
      push_cast
      nlinarith
    exact_mod_cast h
  · rw [div_le_iff₀ (by norm_num)]
    have h : round ((cfg.categories.map
        (fun cat => clamp01 (catPoints ratings cat) * cat.weight)).sum * 100 * 10) ≤ 1000 := by
      rw [round_eq]
      have hfl : (⌊(cfg.categories.map
          (fun cat => clamp01 (catPoints ratings cat) * cat.weight)).sum * 100 * 10 + 1 / 2⌋ : ℤ)
          ≤ ⌊(1000 + 1 / 2 : ℚ)⌋ := Int.floor_le_floor (by nlinarith)
      have h1000 : (⌊(1000 + 1 / 2 : ℚ)⌋ : ℤ) = 1000 := by
        rw [Int.floor_eq_iff]
        norm_num
      rw [h1000] at hfl
      exact hfl
    calc ((round ((cfg.categories.map
          (fun cat => clamp01 (catPoints ratings cat) * cat.weight)).sum * 100 * 10) : ℤ) : ℚ)
        ≤ ((1000 : ℤ) : ℚ) := by exact_mod_cast h
      _ = 100 * 10 := by norm_num

/-- Witness for the amended C3 at the demo default config. -/
theorem c3_amended_witness :
    0 ≤ overallScore DEFAULT_CONFIG emptyRatings ∧ overallScore DEFAULT_CONFIG emptyRatings ≤ 100 :=
  c3_amended_bounds DEFAULT_CONFIG emptyRatings
    (by intro cat hcat; fin_cases hcat <;> norm_num)
    (by norm_num [DEFAULT_CONFIG, List.map_cons, List.map_nil, List.sum_cons, List.sum_nil])

/-- Claim C4: the overall score is invariant under permuting the category list
and under permuting the criteria of any single category. -/
theorem c4_order_invariance (cfg : SolicitationConfig) (ratings : RatingSet) :
    (∀ cats2 : List Category, cfg.categories.Perm cats2 →
        overallScore cfg ratings = overallScore { cfg with categories := cats2 } ratings) ∧
    (∀ (pre post : List Category) (cat : Category) (crits2 : List RubricCriterion),
        cfg.categories = pre ++ cat :: post → cat.criteria.Perm crits2 →
        overallScore cfg ratings
          = overallScore
              { cfg with categories := pre ++ { cat with criteria := crits2 } :: post } ratings) := by
  constructor
  · intro cats2 hperm
    unfold overallScore
    rw [(hperm.map (fun cat => clamp01 (catPoints ratings cat) * cat.weight)).sum_eq]
  · intro pre post cat crits2 hcats hperm
    unfold overallScore
    rw [hcats]
    have hcatPoints : catPoints ratings { cat with criteria := crits2 } = catPoints ratings cat := by
      unfold catPoints
      exact ((hperm.map (fun c => ratingToScore (ratingOf ratings c.id) * c.weight)).sum_eq).symm
    simp only [List.map_append, List.sum_append, List.map_cons, List.sum_cons, hcatPoints]

/-- Witness for C4: reversing the categories of a concrete two-category config,
and reversing the criteria of its first category, leave the score unchanged. -/
theorem c4_witness :
    (overallScore permConfigA emptyRatings
      = overallScore { permConfigA with categories := permConfigA.categories.reverse } emptyRatings) ∧
    (overallScore permConfigA emptyRatings
      = overallScore
          { permConfigA with categories :=
              [] ++ { permCatA with criteria := permCatA.criteria.reverse } :: [permCatB] }
          emptyRatings) :=
  ⟨(c4_order_invariance permConfigA emptyRatings).1 _ (List.reverse_perm _).symm,
   (c4_order_invariance permConfigA emptyRatings).2 [] [permCatB] permCatA _ rfl
     (List.reverse_perm _).symm⟩

/-- Claim C6: a config document that fails to parse leaves the active config
exactly as it was and surfaces an error; a document that parses replaces the
active config wholesale. -/
theorem c6_load_config (parse : String → Option SolicitationConfig)
    (configText : String) (config : SolicitationConfig) :
    (parse configText = none →
        handleLoadConfig parse configText config = (config, true)) ∧
    (∀ parsed, parse configText = some parsed →
        handleLoadConfig parse configText config = (parsed, false)) := by
  constructor
  · intro h
    unfold handleLoadConfig
    rw [h]
  · intro parsed h
    unfold handleLoadConfig
    rw [h]

/-- Witness for C6: a failing parse keeps the default config and alerts; a
successful parse installs the parsed config with no alert. -/
theorem c6_witness :
    handleLoadConfig (fun _ => none) "not json" DEFAULT_CONFIG = (DEFAULT_CONFIG, true) ∧
    handleLoadConfig (fun _ => some altConfig) "ok" DEFAULT_CONFIG = (altConfig, false) :=
  ⟨(c6_load_config (fun _ => none) "not json" DEFAULT_CONFIG).1 rfl,
   (c6_load_config (fun _ => some altConfig) "ok" DEFAULT_CONFIG).2 altConfig rfl⟩

/-- Counterexample to C7 as stated: a request whose body is malformed JSON
throws while being handled (`JSON.parse(body || '{}')` runs before the `try`
block), yet the handler does not respond 500 with `{error, items: []}` — the
exception escapes uncaught. -/
theorem c7_counterexample :
    POST stubStringify (Except.error "SyntaxError: Unexpected token") stubLlm stubParse
        = PostOutcome.uncaught "SyntaxError: Unexpected token" ∧
    respondsCaught500
        (POST stubStringify (Except.error "SyntaxError: Unexpected token") stubLlm stubParse)
      = false :=
  ⟨rfl, rfl⟩

/-- Claim C7 (amended): once the request body has parsed, any error thrown
inside the `try` block (the external call, or parsing the model's response) is
caught and answered with status 500 and body `{error: string, items: []}`; on
success the handler responds 200 with the parsed object; an error thrown while
parsing the request body itself escapes the handler uncaught. -/
theorem c7_amended (stringify : List RubricItem → String) (text : Option String)
    (llmCall : String → Except String (Option String))
    (parseJson : String → Except String (List ScoreItem)) :
    (∀ e, llmCall (userPrompt stringify text) = Except.error e →
        POST stringify (Except.ok text) llmCall parseJson
          = PostOutcome.failure 500 (strFalsyOr (some e) "failed") []) ∧
    (∀ content e, llmCall (userPrompt stringify text) = Except.ok content →
        parseJson (strFalsyOr content "\x7b\x22items\x22:[]\x7d") = Except.error e →
        POST stringify (Except.ok text) llmCall parseJson
          = PostOutcome.failure 500 (strFalsyOr (some e) "failed") []) ∧
    (∀ content data, llmCall (userPrompt stringify text) = Except.ok content →
        parseJson (strFalsyOr content "\x7b\x22items\x22:[]\x7d") = Except.ok data →
        POST stringify (Except.ok text) llmCall parseJson = PostOutcome.success 200 data) ∧
    (∀ e, POST stringify (Except.error e) llmCall parseJson = PostOutcome.uncaught e) := by
  refine ⟨?_, ?_, ?_, ?_⟩
  · intro e he
    simp only [POST, he]
  · intro content e hc he
    simp only [POST, hc, he]
  · intro content data hc hd
    simp only [POST, hc, hd]
  · intro e
    rfl

/-- Witness for the amended C7: a throwing external call yields the 500
response, a clean run yields the parsed 200 response, and a malformed request
body escapes uncaught. -/
theorem c7_witness :
    POST stubStringify (Except.ok (some "hello")) (fun _ => Except.error "boom") stubParse
        = PostOutcome.failure 500 "boom" [] ∧
    POST stubStringify (Except.ok (some "hello")) stubLlm stubParse
        = PostOutcome.success 200 [] ∧
    POST stubStringify (Except.error "bad body") stubLlm stubParse
        = PostOutcome.uncaught "bad body" :=
  ⟨(c7_amended stubStringify (some "hello") (fun _ => Except.error "boom") stubParse).1 "boom" rfl,
   (c7_amended stubStringify (some "hello") stubLlm stubParse).2.2.1 (some "x") [] rfl rfl,
   (c7_amended stubStringify (some "hello") stubLlm stubParse).2.2.2 "bad body"⟩

/-- Claim C9: a milestone's badge is "Strong" iff both its `rdCentric` and
`measurable` booleans are true; every other combination yields "Needs Work". -/
theorem c9_milestone_badge (m : Milestone) :
    (milestoneBadge m = "Strong" ↔ m.rdCentric = true ∧ m.measurable = true) ∧
    (milestoneBadge m = "Strong" ∨ milestoneBadge m = "Needs Work") := by
  unfold milestoneBadge
  cases h1 : m.rdCentric <;> cases h2 : m.measurable <;> simp

/-- Claim C10: the prompt sent to the external model embeds exactly
`text?.slice(0, 6000) || ""`: at most the first 6000 characters of the
submitted text, everything beyond silently discarded, and a missing or null
text sent as the empty string. -/
theorem c10_prompt_truncation (stringify : List RubricItem → String) (text : Option String) :
    userPrompt stringify text
        = "Rubric: " ++ stringify rubric ++ "\n---\nSection:\n" ++ sectionText text ∧
    sectionText none = "" ∧
    (∀ t : String, (sectionText (some t)).data = t.data.take 6000) ∧
    (∀ t : String, (sectionText (some t)).length ≤ 6000) ∧
    (∀ t : String, (sectionText (some t)).data ++ t.data.drop 6000 = t.data) := by
  have key : ∀ t : String, (sectionText (some t)).data = t.data.take 6000 := by
    intro t
    unfold sectionText strFalsyOr jsSlice
    simp only [Option.map_some']
    by_cases h : String.mk (t.data.take 6000) = ""
    · rw [if_pos h]
      have hdata := congrArg String.data h
      simpa using hdata.symm
    · rw [if_neg h]
  refine ⟨rfl, rfl, key, ?_, ?_⟩
  · intro t
    have hlen : (sectionText (some t)).length = (sectionText (some t)).data.length := rfl
    rw [hlen, key t, List.length_take]
    exact min_le_left _ _
  · intro t
    rw [key t]
    exact List.take_append_drop _ _

end Afwerx
